import Mathlib

/-!
Verification development for the `local_proxy` Go repository (`proxy.go`).

The program is a localhost HTTP gateway with three handlers:
  * `/open`  — validates a caller-supplied relative `name`, joins it onto a
    configured base directory and launches the platform file manager on it;
  * `/test`  — a diagnostic badge endpoint emitting a small SVG whose fill
    color reports a path/glob probe;
  * `/style` — emits a one-line CSS rule for a given class.

We shallowly embed the lexical path functions used by the code
(`filepath.Clean`, `filepath.Join`, `filepath.IsAbs`, `filepath.Base` for
Unix-style slash-separated paths, matching the `default`/`xdg-open` platform
branch of `openPath`) as structural recursion over `List Char`, so that every
definition is kernel-computable.  The filesystem, the glob matcher and the
process spawner are modelled as oracle functions gathered in an `Env`
record; each handler is a pure function of the configuration, the
environment and the decoded query parameters.
-/

namespace LocalProxy

/-- Split a character list on `/` separators, mirroring the segment view used
by Go `filepath.Clean` (e.g. `"a/b"` ↦ `["a","b"]`, `"/a"` ↦ `["","a"]`,
`""` ↦ `[""]`). -/
def splitOnSlash : List Char → List (List Char)
  | [] => [[]]
  | c :: rest =>
    let r := splitOnSlash rest
    if c = '/' then [] :: r
    else
      match r with
      | [] => [[c]]
      | s :: ss => (c :: s) :: ss

/-- Join path segments back with `/` separators. -/
def joinSegs : List (List Char) → List Char
  | [] => []
  | [s] => s
  | s :: rest => s ++ '/' :: joinSegs rest

/-- The `..`/element elimination loop of Go `filepath.Clean`: a `..` segment
cancels a preceding normal segment, is dropped at the root of a rooted path,
and is kept when there is nothing left to climb over in a relative path. -/
def resolveDots (rooted : Bool) : List (List Char) → List (List Char) → List (List Char)
  | acc, [] => acc.reverse
  | acc, seg :: rest =>
    if seg = ['.', '.'] then
      match acc with
      | [] =>
        if rooted then resolveDots rooted [] rest
        else resolveDots rooted [['.', '.']] rest
      | a :: as =>
        if a = ['.', '.'] then resolveDots rooted (seg :: a :: as) rest
        else resolveDots rooted as rest
    else resolveDots rooted (seg :: acc) rest

/-- Go `filepath.Clean` (Unix rules) on a character list. -/
def cleanChars (p : List Char) : List Char :=
  if p = [] then ['.']
  else
    let rooted : Bool := p.head? = some '/'
    let segs :=
      (splitOnSlash p).filter (fun s => decide (s ≠ [] ∧ s ≠ ['.']))
    let segs := resolveDots rooted [] segs
    if rooted then '/' :: joinSegs segs
    else if segs = [] then ['.'] else joinSegs segs

/-- Go `filepath.Clean` (Unix rules). -/
def clean (p : String) : String :=
  String.mk (cleanChars p.data)

/-- Go `filepath.IsAbs` (Unix rules): a path is absolute iff it starts
with `/`. -/
def isAbs (p : String) : Bool :=
  match p.data with
  | '/' :: _ => true
  | _ => false

/-- Go `filepath.Join` (Unix rules) on two elements: drop empty elements,
join the rest with `/`, and `Clean` the result. -/
def joinPath (a b : String) : String :=
  if a.data = [] then
    if b.data = [] then "" else clean b
  else if b.data = [] then clean a
  else String.mk (cleanChars (a.data ++ '/' :: b.data))

/-- Go `filepath.Base` (Unix rules): strip trailing slashes, take the last
path element; `""` gives `"."`, an all-slash path gives `"/"`. -/
def basename (p : String) : String :=
  if p.data = [] then "."
  else
    let q := (p.data.reverse.dropWhile (fun c => c = '/')).reverse
    if q = [] then "/"
    else String.mk ((splitOnSlash q).getLastD [])

/-- Go `strings.HasSuffix` as used in `HasFileWithPrefixExceptExt`. -/
def strHasSuffix (s suffix : String) : Bool :=
  suffix.data.isSuffixOf s.data

/-- Lexical containment of `p` under directory `base`: `p` is `base` itself
or extends `base ++ "/"`.  Used to express the escape in the path-guard
claim; the source performs no such post-join check. -/
def lexWithin (base p : String) : Bool :=
  p = base || (base ++ "/").data.isPrefixOf p.data

/-- Startup configuration: the (already absolutized) base directory and the
shared-secret token.  The listening port plays no role in request
handling. -/
structure Config where
  basePath : String
  token : String
  deriving DecidableEq

/-- Oracle model of the platform effects a request can touch:
  * `stat p = none` models `os.Stat(p)` failing (path absent or error),
    `some isDir` a successful stat with the reported directory bit;
  * `glob pat` models `filepath.Glob(pat)`: `.error ()` is
    `ErrBadPattern`, `.ok files` the list of matched file paths;
  * `start p = none` models a successful `cmd.Start()` on path `p`,
    `some msg` a spawn failure with error text `msg`. -/
structure Env where
  stat : String → Option Bool
  glob : String → Except Unit (List String)
  start : String → Option String

/-- Observable HTTP responses of the three handlers.  SVG badge bodies are
determined by the template's two format slots (fill color, label text), so
the badge constructors carry exactly those; `plainGreenBadge` is the fixed
label-free green badge of `/test` with an empty glob. -/
inductive Response where
  | httpError (msg : String) (status : Nat)
  | noContent
  | badge (color : String) (label : String)
  | plainGreenBadge
  | css (body : String)
  deriving DecidableEq

/-- HTTP status code of a response (badges and css are written with
`StatusOK`, success of `/open` with `StatusNoContent`). -/
def Response.status : Response → Nat
  | .httpError _ s => s
  | .noContent => 204
  | .badge _ _ => 200
  | .plainGreenBadge => 200
  | .css _ => 200

/-- Content-Type header set by the handler, when any. -/
def Response.contentType : Response → Option String
  | .httpError _ _ => none
  | .noContent => none
  | .badge _ _ => some "image/svg+xml"
  | .plainGreenBadge => some "image/svg+xml"
  | .css _ => some "text/css"

/-- `HasFileWithPrefixExceptExt(dir, pref, excludeExt)`: glob
`Join(dir, pref)` and report whether some match does not end in
`excludeExt`; a glob error is propagated. -/
def HasFileWithPrefixExceptExt (env : Env) (dir pref excludeExt : String) :
    Except Unit Bool :=
  match env.glob (joinPath dir pref) with
  | .error e => .error e
  | .ok files => .ok (files.any (fun f => !(strHasSuffix f excludeExt)))

/-- The tail of the `/open` handler after all validation passed: join the
cleaned name onto the base, stat it, and on an existing directory attempt
the process launch (`openPath`).  The second component records the launched
process arguments (one entry per successful `cmd.Start`). -/
def openResolve (cfg : Config) (env : Env) (name : String) :
    Response × List String :=
  let fullPath := joinPath cfg.basePath (clean name)
  match env.stat fullPath with
  | some true =>
    match env.start fullPath with
    | none => (.noContent, [fullPath])
    | some e => (.httpError ("Failed to open: " ++ e) 500, [])
  | _ => (.httpError "Not Found" 404, [])

/-- The `/open` handler: missing-name check, token check, absolute-path
guard (on the original caller-supplied `name`), then stat/launch. -/
def openHandler (cfg : Config) (env : Env) (name tok : String) :
    Response × List String :=
  if name = "" then (.httpError "Missing ?name= parameter" 400, [])
  else if cfg.token ≠ "" ∧ cfg.token ≠ tok then
    (.httpError "Invalid Token" 400, [])
  else if isAbs name then (.httpError "Invalid folder/file name" 400, [])
  else openResolve cfg env name

/-- The tail of the `/test` handler after all validation passed: stat the
joined path; on error emit the red badge labelled with `glob`; otherwise on
a non-empty `glob` run `HasFileWithPrefixExceptExt` on the base name of the
glob (green/orange badge, or `Bad Glob` on a pattern error), and on an
empty `glob` emit the fixed green badge. -/
def testResolve (cfg : Config) (env : Env) (name glob : String) : Response :=
  let fullPath := joinPath cfg.basePath (clean name)
  match env.stat fullPath with
  | none => .badge "red" glob
  | some _ =>
    if glob ≠ "" then
      match HasFileWithPrefixExceptExt env fullPath (basename glob) ".txt" with
      | .error _ => .httpError "Bad Glob" 400
      | .ok true => .badge "green" glob
      | .ok false => .badge "orange" glob
    else .plainGreenBadge

/-- The `/test` handler: missing-name check, token check, absolute-path
guard, then the badge logic. -/
def testHandler (cfg : Config) (env : Env) (name glob tok : String) :
    Response :=
  if name = "" then .httpError "Missing ?name= parameter" 400
  else if cfg.token ≠ "" ∧ cfg.token ≠ tok then .httpError "Invalid Token" 400
  else if isAbs name then .httpError "Invalid folder/file name" 400
  else testResolve cfg env name glob

/-- The `/style` handler: missing-class check, token check, then the CSS
body `fmt.Fprintf(w, ".%s \x7b display: initial !important; \x7d", class)`. -/
def styleHandler (cfg : Config) (cls tok : String) : Response :=
  if cls = "" then .httpError "Missing ?class= parameter" 400
  else if cfg.token ≠ "" ∧ cfg.token ≠ tok then .httpError "Invalid Token" 400
  else .css ("." ++ cls ++ " \x7b display: initial !important; \x7d")

/-- A concrete environment with an empty filesystem, used in witnesses. -/
def envEmpty : Env where
  stat := fun _ => none
  glob := fun _ => .ok []
  start := fun _ => none

/-- A concrete no-token configuration used in witnesses. -/
def cfgOpenAuth : Config := { basePath := "/srv/www", token := "" }

example : clean "../../etc" = "../../etc" := by decide
example : clean "/srv/www/../../etc" = "/etc" := by decide
example : clean "a//b/./c/.." = "a/b" := by decide
example : clean "" = "." := by decide
example : clean "/.." = "/" := by decide
example : joinPath "/srv/www" "../../etc" = "/etc" := by decide
example : basename "a/b/c" = "c" := by decide
example : basename "dir/*.md" = "*.md" := by decide
example : basename "//" = "/" := by decide
example : basename "" = "." := by decide
example : isAbs "/etc" = true := by decide
example : isAbs "../../etc" = false := by decide
example : strHasSuffix "a/b.txt" ".txt" = true := by decide
example : strHasSuffix "a/b.md" ".txt" = false := by decide
example : lexWithin "/srv/www" "/etc" = false := by decide
example : lexWithin "/srv/www" "/srv/www/x" = true := by decide

/-- A configuration with a non-empty token, used in witnesses. -/
def cfgTok : Config := { basePath := "/srv/www", token := "s" }

/-- Environment whose stat always reports an existing directory and whose
process spawn succeeds. -/
def envDir : Env where
  stat := fun _ => some true
  glob := fun _ => .ok []
  start := fun _ => none

/-- Environment whose stat reports an existing non-directory file. -/
def envFile : Env where
  stat := fun _ => some false
  glob := fun _ => .ok []
  start := fun _ => none

/-- Environment with an existing directory whose glob matches one `.md`
file. -/
def envGlobMd : Env where
  stat := fun _ => some true
  glob := fun _ => .ok ["/srv/www/d/a.md"]
  start := fun _ => none

/-- Environment with an existing directory whose glob matches only a `.txt`
file. -/
def envGlobTxt : Env where
  stat := fun _ => some true
  glob := fun _ => .ok ["/srv/www/d/a.txt"]
  start := fun _ => none

/-- Environment with an existing directory and a glob matcher that reports
a bad pattern. -/
def envGlobBad : Env where
  stat := fun _ => some true
  glob := fun _ => .error ()
  start := fun _ => none

lemma isAbs_ne_empty {name : String} (h : isAbs name = true) : name ≠ "" := by
  intro he
  subst he
  exact absurd h (by decide)

lemma openResolve_fst_ne_guard (cfg : Config) (env : Env) (name : String) :
    (openResolve cfg env name).1 ≠ Response.httpError "Invalid folder/file name" 400 := by
  rcases h : env.stat (joinPath cfg.basePath (clean name)) with _ | b
  · simp [openResolve, h]
  · cases b
    · simp [openResolve, h]
    · rcases h' : env.start (joinPath cfg.basePath (clean name)) with _ | e <;>
        simp [openResolve, h, h']

lemma testResolve_ne_guard (cfg : Config) (env : Env) (name glob : String) :
    testResolve cfg env name glob ≠ Response.httpError "Invalid folder/file name" 400 := by
  rcases h : env.stat (joinPath cfg.basePath (clean name)) with _ | b
  · simp [testResolve, h]
  · by_cases hg : glob = ""
    · simp [testResolve, h, hg]
    · rcases hh : HasFileWithPrefixExceptExt env
          (joinPath cfg.basePath (clean name)) (basename glob) ".txt" with e | bb
      · simp [testResolve, h, hg, hh]
      · cases bb <;> simp [testResolve, h, hg, hh]

/-- C1: once the missing-name and token checks pass, the `/open` and `/test`
guard answers 400 "Invalid folder/file name" exactly when the original,
caller-supplied `name` is an absolute path; and since there is no post-join
containment check, the non-absolute name `"../../etc"` is accepted and its
cleaned-and-joined result `"/etc"` lies lexically outside the base
`"/srv/www"` (the handler proceeds to the stat, answering 404 on the empty
filesystem rather than rejecting). -/
theorem guard_rejects_iff_abs_and_escape :
    (∀ (cfg : Config) (env : Env) (name glob tok : String),
      name ≠ "" → (cfg.token = "" ∨ cfg.token = tok) →
      (((openHandler cfg env name tok).1 =
          Response.httpError "Invalid folder/file name" 400 ↔ isAbs name = true) ∧
       (testHandler cfg env name glob tok =
          Response.httpError "Invalid folder/file name" 400 ↔ isAbs name = true))) ∧
    (isAbs "../../etc" = false ∧
     joinPath "/srv/www" (clean "../../etc") = "/etc" ∧
     lexWithin "/srv/www" (joinPath "/srv/www" (clean "../../etc")) = false ∧
     openHandler cfgOpenAuth envEmpty "../../etc" "" =
       (Response.httpError "Not Found" 404, [])) := by
  constructor
  · intro cfg env name glob tok hName hTok
    have hTok' : ¬(cfg.token ≠ "" ∧ cfg.token ≠ tok) := by
      rcases hTok with h | h <;> simp [h]
    cases hAbs : isAbs name
    · have hOpen : openHandler cfg env name tok = openResolve cfg env name := by
        simp [openHandler, hName, hTok', hAbs]
      have hTest : testHandler cfg env name glob tok = testResolve cfg env name glob := by
        simp [testHandler, hName, hTok', hAbs]
      rw [hOpen, hTest]
      constructor
      · constructor
        · intro hEq; exact absurd hEq (openResolve_fst_ne_guard cfg env name)
        · intro h; cases h
      · constructor
        · intro hEq; exact absurd hEq (testResolve_ne_guard cfg env name glob)
        · intro h; cases h
    · have hOpen : openHandler cfg env name tok =
          (Response.httpError "Invalid folder/file name" 400, []) := by
        simp [openHandler, hName, hTok', hAbs]
      have hTest : testHandler cfg env name glob tok =
          Response.httpError "Invalid folder/file name" 400 := by
        simp [testHandler, hName, hTok', hAbs]
      rw [hOpen, hTest]
      simp
  · refine ⟨by decide, by decide, by decide, by decide⟩

/-- C1 witness: with an empty filesystem and no token configured, the
absolute name rejection and the traversal escape are both observable at
concrete inputs. -/
theorem guard_rejects_iff_abs_and_escape_witness :
    (openHandler cfgOpenAuth envEmpty "/etc" "x").1 =
      Response.httpError "Invalid folder/file name" 400 :=
  ((guard_rejects_iff_abs_and_escape.1 cfgOpenAuth envEmpty "/etc" "" "x"
      (by decide) (Or.inl rfl)).1).mpr (by decide)

/-- C2 counterexample: with the token `"s"` configured and the differing
token `"t"` supplied, a request to `/open` with an empty `name` is answered
with the 400 missing-parameter error, not with the 400 invalid-token
authorization error: the claim's "every request returns a 400-class
authorization error" fails at this input. -/
theorem token_mismatch_counterexample :
    cfgTok.token ≠ "" ∧ ("t" : String) ≠ cfgTok.token ∧
    (openHandler cfgTok envEmpty "" "t").1 =
      Response.httpError "Missing ?name= parameter" 400 ∧
    (openHandler cfgTok envEmpty "" "t").1 ≠
      Response.httpError "Invalid Token" 400 := by
  refine ⟨by decide, by decide, by decide, by decide⟩

/-- C2 (amended): when a non-empty token is configured and the supplied
token differs, every endpoint answers with status 400, `/open` launches no
process, and the response never depends on the environment (no filesystem
or process action is observable); whenever the required `name`/`class`
parameter is non-empty the response is exactly the 400 "Invalid Token"
authorization error (an empty required parameter is reported first, as the
missing-parameter 400). -/
theorem token_mismatch_blocks_all_endpoints :
    ∀ (cfg : Config) (env env' : Env) (name glob cls tok : String),
      cfg.token ≠ "" → tok ≠ cfg.token →
      ((openHandler cfg env name tok).1.status = 400 ∧
       (openHandler cfg env name tok).2 = [] ∧
       openHandler cfg env name tok = openHandler cfg env' name tok ∧
       (name ≠ "" → (openHandler cfg env name tok).1 =
          Response.httpError "Invalid Token" 400)) ∧
      ((testHandler cfg env name glob tok).status = 400 ∧
       testHandler cfg env name glob tok = testHandler cfg env' name glob tok ∧
       (name ≠ "" → testHandler cfg env name glob tok =
          Response.httpError "Invalid Token" 400)) ∧
      ((styleHandler cfg cls tok).status = 400 ∧
       (cls ≠ "" → styleHandler cfg cls tok =
          Response.httpError "Invalid Token" 400)) := by
  intro cfg env env' name glob cls tok hCfg hTok
  have hNe : cfg.token ≠ tok := fun h => hTok h.symm
  by_cases hName : name = ""
  · subst hName
    by_cases hCls : cls = ""
    · subst hCls
      refine ⟨⟨rfl, rfl, rfl, fun h => absurd rfl h⟩,
              ⟨rfl, rfl, fun h => absurd rfl h⟩,
              ⟨rfl, fun h => absurd rfl h⟩⟩
    · have hStyle : styleHandler cfg cls tok = Response.httpError "Invalid Token" 400 := by
        simp [styleHandler, hCls, hCfg, hNe]
      exact ⟨⟨rfl, rfl, rfl, fun h => absurd rfl h⟩,
             ⟨rfl, rfl, fun h => absurd rfl h⟩,
             ⟨by rw [hStyle]; rfl, fun _ => hStyle⟩⟩
  · have hOpen : ∀ e : Env, openHandler cfg e name tok =
        (Response.httpError "Invalid Token" 400, []) := by
      intro e; simp [openHandler, hName, hCfg, hNe]
    have hTest : ∀ e : Env, testHandler cfg e name glob tok =
        Response.httpError "Invalid Token" 400 := by
      intro e; simp [testHandler, hName, hCfg, hNe]
    refine ⟨⟨by rw [hOpen env]; rfl, by rw [hOpen env], by rw [hOpen env, hOpen env'],
             fun _ => by rw [hOpen env]⟩,
            ⟨by rw [hTest env]; rfl, by rw [hTest env, hTest env'], fun _ => hTest env⟩,
            ?_⟩
    by_cases hCls : cls = ""
    · subst hCls
      exact ⟨rfl, fun h => absurd rfl h⟩
    · have hStyle : styleHandler cfg cls tok = Response.httpError "Invalid Token" 400 := by
        simp [styleHandler, hCls, hCfg, hNe]
      exact ⟨by rw [hStyle]; rfl, fun _ => hStyle⟩

/-- C2 witness: concrete instance with configured token `"s"`, supplied
token `"t"` and non-empty parameters. -/
theorem token_mismatch_blocks_all_endpoints_witness :
    (openHandler cfgTok envDir "a" "t").1 = Response.httpError "Invalid Token" 400 ∧
    testHandler cfgTok envDir "a" "g" "t" = Response.httpError "Invalid Token" 400 ∧
    styleHandler cfgTok "c" "t" = Response.httpError "Invalid Token" 400 := by
  have h := token_mismatch_blocks_all_endpoints cfgTok envDir envEmpty "a" "g" "c" "t"
    (by decide) (by decide)
  exact ⟨h.1.2.2.2 (by decide), h.2.1.2.2 (by decide), h.2.2.2 (by decide)⟩

/-- C3: the `/open` handler applies its checks in order — missing name,
then token, then the absolute-path guard, then existence/is-directory via
`openResolve`: the first failing check fully determines the response (in
particular the response of any failing early check is a constant,
independent of the environment, so no later check runs). -/
theorem open_validation_order :
    ∀ (cfg : Config) (env env' : Env) (name tok : String),
      (name = "" →
        openHandler cfg env name tok = (Response.httpError "Missing ?name= parameter" 400, [])) ∧
      (name ≠ "" → cfg.token ≠ "" → cfg.token ≠ tok →
        openHandler cfg env name tok = (Response.httpError "Invalid Token" 400, [])) ∧
      (name ≠ "" → (cfg.token = "" ∨ cfg.token = tok) → isAbs name = true →
        openHandler cfg env name tok =
          (Response.httpError "Invalid folder/file name" 400, [])) ∧
      (name ≠ "" → (cfg.token = "" ∨ cfg.token = tok) → isAbs name = false →
        openHandler cfg env name tok = openResolve cfg env name) ∧
      ((name = "" ∨ (cfg.token ≠ "" ∧ cfg.token ≠ tok) ∨ isAbs name = true) →
        openHandler cfg env name tok = openHandler cfg env' name tok) := by
  intro cfg env env' name tok
  refine ⟨?_, ?_, ?_, ?_, ?_⟩
  · intro h; simp [openHandler, h]
  · intro hName hCfg hNe; simp [openHandler, hName, hCfg, hNe]
  · intro hName hTok hAbs
    have hTok' : ¬(cfg.token ≠ "" ∧ cfg.token ≠ tok) := by
      rcases hTok with h | h <;> simp [h]
    simp [openHandler, hName, hTok', hAbs]
  · intro hName hTok hAbs
    have hTok' : ¬(cfg.token ≠ "" ∧ cfg.token ≠ tok) := by
      rcases hTok with h | h <;> simp [h]
    simp [openHandler, hName, hTok', hAbs]
  · intro h
    rcases h with h | h | h
    · simp [openHandler, h]
    · simp [openHandler, h.1, h.2]
    · have hName := isAbs_ne_empty h
      by_cases hTok : cfg.token ≠ "" ∧ cfg.token ≠ tok
      · simp [openHandler, hName, hTok.1, hTok.2]
      · simp [openHandler, hName, hTok, h]

/-- C3 witness: each stage observed at a concrete input — empty name, bad
token, absolute name, and a relative name reaching the stat stage. -/
theorem open_validation_order_witness :
    openHandler cfgTok envDir "" "t" = (Response.httpError "Missing ?name= parameter" 400, []) ∧
    openHandler cfgTok envDir "a" "t" = (Response.httpError "Invalid Token" 400, []) ∧
    openHandler cfgTok envDir "/a" "s" =
      (Response.httpError "Invalid folder/file name" 400, []) ∧
    openHandler cfgOpenAuth envEmpty "a" "" = openResolve cfgOpenAuth envEmpty "a" := by
  refine ⟨(open_validation_order cfgTok envDir envDir "" "t").1 rfl,
          (open_validation_order cfgTok envDir envDir "a" "t").2.1 (by decide) (by decide) (by decide),
          (open_validation_order cfgTok envDir envDir "/a" "s").2.2.1 (by decide) (Or.inr rfl) (by decide),
          (open_validation_order cfgOpenAuth envEmpty envEmpty "a" "").2.2.2.1 (by decide) (Or.inl rfl) (by decide)⟩

/-- C4: a non-empty, non-absolute name whose cleaned-and-joined path stats
as an existing directory, with a passing token check and a successful
process spawn, makes `/open` answer 204 No Content with exactly one process
launch, whose argument is the resolved path. -/
theorem open_dir_204_single_launch :
    ∀ (cfg : Config) (env : Env) (name tok : String),
      name ≠ "" → (cfg.token = "" ∨ cfg.token = tok) → isAbs name = false →
      env.stat (joinPath cfg.basePath (clean name)) = some true →
      env.start (joinPath cfg.basePath (clean name)) = none →
      openHandler cfg env name tok =
        (Response.noContent, [joinPath cfg.basePath (clean name)]) := by
  intro cfg env name tok hName hTok hAbs hStat hStart
  have hTok' : ¬(cfg.token ≠ "" ∧ cfg.token ≠ tok) := by
    rcases hTok with h | h <;> simp [h]
  simp [openHandler, hName, hTok', hAbs, openResolve, hStat, hStart]

/-- C4 witness: base `/srv/www`, name `site-a`, existing directory and
successful spawn. -/
theorem open_dir_204_single_launch_witness :
    openHandler cfgOpenAuth envDir "site-a" "" =
      (Response.noContent, ["/srv/www/site-a"]) := by
  have h := open_dir_204_single_launch cfgOpenAuth envDir "site-a" ""
    (by decide) (Or.inl rfl) (by decide) rfl rfl
  exact h.trans (by decide)

/-- C5: for every syntactically absolute `name`, `/open` and `/test` answer
with HTTP status 400 whatever the supplied token and whatever the
environment (and the response does not depend on the environment; `/open`
launches nothing). -/
theorem abs_name_always_400 :
    ∀ (cfg : Config) (env env' : Env) (name glob tok : String),
      isAbs name = true →
      (openHandler cfg env name tok).1.status = 400 ∧
      (openHandler cfg env name tok).2 = [] ∧
      openHandler cfg env name tok = openHandler cfg env' name tok ∧
      (testHandler cfg env name glob tok).status = 400 ∧
      testHandler cfg env name glob tok = testHandler cfg env' name glob tok := by
  intro cfg env env' name glob tok hAbs
  have hName := isAbs_ne_empty hAbs
  by_cases hTok : cfg.token ≠ "" ∧ cfg.token ≠ tok
  · have hOpen : ∀ e : Env, openHandler cfg e name tok =
        (Response.httpError "Invalid Token" 400, []) := by
      intro e; simp [openHandler, hName, hTok.1, hTok.2]
    have hTest : ∀ e : Env, testHandler cfg e name glob tok =
        Response.httpError "Invalid Token" 400 := by
      intro e; simp [testHandler, hName, hTok.1, hTok.2]
    exact ⟨by rw [hOpen env]; rfl, by rw [hOpen env], by rw [hOpen env, hOpen env'],
           by rw [hTest env]; rfl, by rw [hTest env, hTest env']⟩
  · have hOpen : ∀ e : Env, openHandler cfg e name tok =
        (Response.httpError "Invalid folder/file name" 400, []) := by
      intro e; simp [openHandler, hName, hTok, hAbs]
    have hTest : ∀ e : Env, testHandler cfg e name glob tok =
        Response.httpError "Invalid folder/file name" 400 := by
      intro e; simp [testHandler, hName, hTok, hAbs]
    exact ⟨by rw [hOpen env]; rfl, by rw [hOpen env], by rw [hOpen env, hOpen env'],
           by rw [hTest env]; rfl, by rw [hTest env, hTest env']⟩

/-- C5 witness: the absolute name `/etc` is answered 400 by both handlers
even with a correct token and an all-directories filesystem. -/
theorem abs_name_always_400_witness :
    ((openHandler cfgTok envDir "/etc" "s").1.status = 400 ∧
     (testHandler cfgTok envDir "/etc" "g" "s").status = 400) := by
  have h := abs_name_always_400 cfgTok envDir envEmpty "/etc" "g" "s" (by decide)
  exact ⟨h.1, h.2.2.2.1⟩

/-- C6: for a name passing the missing-name, token and guard checks whose
resolved path does not exist (stat error), `/open` answers 404 Not Found
with no launch, while `/test` answers 200 with the SVG badge whose fill is
red and whose label is the supplied glob string. -/
theorem nonexistent_open_404_test_red :
    ∀ (cfg : Config) (env : Env) (name glob tok : String),
      name ≠ "" → (cfg.token = "" ∨ cfg.token = tok) → isAbs name = false →
      env.stat (joinPath cfg.basePath (clean name)) = none →
      openHandler cfg env name tok = (Response.httpError "Not Found" 404, []) ∧
      testHandler cfg env name glob tok = Response.badge "red" glob ∧
      (testHandler cfg env name glob tok).status = 200 ∧
      (testHandler cfg env name glob tok).contentType = some "image/svg+xml" := by
  intro cfg env name glob tok hName hTok hAbs hStat
  have hTok' : ¬(cfg.token ≠ "" ∧ cfg.token ≠ tok) := by
    rcases hTok with h | h <;> simp [h]
  have hTest : testHandler cfg env name glob tok = Response.badge "red" glob := by
    simp [testHandler, hName, hTok', hAbs, testResolve, hStat]
  exact ⟨by simp [openHandler, hName, hTok', hAbs, openResolve, hStat],
         hTest, by rw [hTest]; rfl, by rw [hTest]; rfl⟩

/-- C6 witness: empty filesystem, name `missing`, glob label `g`. -/
theorem nonexistent_open_404_test_red_witness :
    openHandler cfgOpenAuth envEmpty "missing" "" =
      (Response.httpError "Not Found" 404, []) ∧
    testHandler cfgOpenAuth envEmpty "missing" "g" "" = Response.badge "red" "g" := by
  have h := nonexistent_open_404_test_red cfgOpenAuth envEmpty "missing" "g" ""
    (by decide) (Or.inl rfl) (by decide) rfl
  exact ⟨h.1, h.2.1⟩

/-- C7: for `/test` on an existing resolved path with a non-empty glob, the
glob of `Join(fullPath, Base(glob))` decides the answer: some match not
ending in `.txt` gives the 200 green badge labelled with `glob`, no such
match gives the 200 orange badge labelled with `glob`, and a glob pattern
error gives the 400 "Bad Glob" client error. -/
theorem test_glob_tristate :
    ∀ (cfg : Config) (env : Env) (name glob tok : String) (d : Bool) (files : List String),
      name ≠ "" → (cfg.token = "" ∨ cfg.token = tok) → isAbs name = false →
      env.stat (joinPath cfg.basePath (clean name)) = some d →
      glob ≠ "" →
      ((env.glob (joinPath (joinPath cfg.basePath (clean name)) (basename glob)) = .ok files →
        (files.any (fun f => !(strHasSuffix f ".txt")) = true →
          testHandler cfg env name glob tok = Response.badge "green" glob ∧
          (testHandler cfg env name glob tok).status = 200) ∧
        (files.any (fun f => !(strHasSuffix f ".txt")) = false →
          testHandler cfg env name glob tok = Response.badge "orange" glob ∧
          (testHandler cfg env name glob tok).status = 200)) ∧
       (env.glob (joinPath (joinPath cfg.basePath (clean name)) (basename glob)) = .error () →
        testHandler cfg env name glob tok = Response.httpError "Bad Glob" 400)) := by
  intro cfg env name glob tok d files hName hTok hAbs hStat hGlob
  have hTok' : ¬(cfg.token ≠ "" ∧ cfg.token ≠ tok) := by
    rcases hTok with h | h <;> simp [h]
  constructor
  · intro hFiles
    constructor
    · intro hAny
      have hT : testHandler cfg env name glob tok = Response.badge "green" glob := by
        simp [testHandler, hName, hTok', hAbs, testResolve, hStat, hGlob,
          HasFileWithPrefixExceptExt, hFiles, hAny]
      exact ⟨hT, by rw [hT]; rfl⟩
    · intro hAny
      have hT : testHandler cfg env name glob tok = Response.badge "orange" glob := by
        simp [testHandler, hName, hTok', hAbs, testResolve, hStat, hGlob,
          HasFileWithPrefixExceptExt, hFiles, hAny]
      exact ⟨hT, by rw [hT]; rfl⟩
  · intro hErr
    simp [testHandler, hName, hTok', hAbs, testResolve, hStat, hGlob,
      HasFileWithPrefixExceptExt, hErr]

/-- C7 witness: the three outcomes at concrete environments — a matching
`.md` file (green), only a `.txt` match (orange), and a bad pattern
(400). -/
theorem test_glob_tristate_witness :
    testHandler cfgOpenAuth envGlobMd "d" "d/*" "" = Response.badge "green" "d/*" ∧
    testHandler cfgOpenAuth envGlobTxt "d" "d/*" "" = Response.badge "orange" "d/*" ∧
    testHandler cfgOpenAuth envGlobBad "d" "d/*" "" = Response.httpError "Bad Glob" 400 := by
  refine ⟨((test_glob_tristate cfgOpenAuth envGlobMd "d" "d/*" "" true ["/srv/www/d/a.md"]
            (by decide) (Or.inl rfl) (by decide) rfl (by decide)).1 rfl).1 (by decide) |>.1,
          ((test_glob_tristate cfgOpenAuth envGlobTxt "d" "d/*" "" true ["/srv/www/d/a.txt"]
            (by decide) (Or.inl rfl) (by decide) rfl (by decide)).1 rfl).2 (by decide) |>.1,
          (test_glob_tristate cfgOpenAuth envGlobBad "d" "d/*" "" true []
            (by decide) (Or.inl rfl) (by decide) rfl (by decide)).2 rfl⟩

/-- C8: for every non-empty class value with a passing token check,
`/style` answers 200 with content type `text/css` and exactly the rule
forcing that class to display. -/
theorem style_css_rule :
    ∀ (cfg : Config) (cls tok : String),
      cls ≠ "" → (cfg.token = "" ∨ cfg.token = tok) →
      styleHandler cfg cls tok =
        Response.css ("." ++ cls ++ " \x7b display: initial !important; \x7d") ∧
      (styleHandler cfg cls tok).status = 200 ∧
      (styleHandler cfg cls tok).contentType = some "text/css" := by
  intro cfg cls tok hCls hTok
  have hTok' : ¬(cfg.token ≠ "" ∧ cfg.token ≠ tok) := by
    rcases hTok with h | h <;> simp [h]
  have h : styleHandler cfg cls tok =
      Response.css ("." ++ cls ++ " \x7b display: initial !important; \x7d") := by
    simp [styleHandler, hCls, hTok']
  exact ⟨h, by rw [h]; rfl, by rw [h]; rfl⟩

/-- C8 witness: class `foo` with the configured token supplied. -/
theorem style_css_rule_witness :
    styleHandler cfgTok "foo" "s" =
      Response.css ".foo \x7b display: initial !important; \x7d" := by
  have h := style_css_rule cfgTok "foo" "s" (by decide) (Or.inr rfl)
  exact h.1.trans (by decide)

/-- The `/open` control path with the token check removed, used to state
that an empty configured token disables authentication. -/
def openNoAuth (cfg : Config) (env : Env) (name : String) : Response × List String :=
  if name = "" then (.httpError "Missing ?name= parameter" 400, [])
  else if isAbs name then (.httpError "Invalid folder/file name" 400, [])
  else openResolve cfg env name

/-- The `/test` control path with the token check removed. -/
def testNoAuth (cfg : Config) (env : Env) (name glob : String) : Response :=
  if name = "" then .httpError "Missing ?name= parameter" 400
  else if isAbs name then .httpError "Invalid folder/file name" 400
  else testResolve cfg env name glob

/-- The `/style` control path with the token check removed. -/
def styleNoAuth (cls : String) : Response :=
  if cls = "" then .httpError "Missing ?class= parameter" 400
  else .css ("." ++ cls ++ " \x7b display: initial !important; \x7d")

/-- C9: with an empty configured token, every endpoint behaves, for every
supplied token value, exactly as the same handler with the token check
erased: the token check passes and the request proceeds to the remaining
checks. -/
theorem empty_token_disables_auth :
    ∀ (cfg : Config) (env : Env) (name glob cls tok : String),
      cfg.token = "" →
      openHandler cfg env name tok = openNoAuth cfg env name ∧
      testHandler cfg env name glob tok = testNoAuth cfg env name glob ∧
      styleHandler cfg cls tok = styleNoAuth cls := by
  intro cfg env name glob cls tok hCfg
  refine ⟨?_, ?_, ?_⟩
  · by_cases hName : name = "" <;>
      simp [openHandler, openNoAuth, hName, hCfg]
  · by_cases hName : name = "" <;>
      simp [testHandler, testNoAuth, hName, hCfg]
  · by_cases hCls : cls = "" <;>
      simp [styleHandler, styleNoAuth, hCls, hCfg]

/-- C9 witness: with the no-token configuration, a request with an
arbitrary supplied token proceeds to the later checks of each handler. -/
theorem empty_token_disables_auth_witness :
    openHandler cfgOpenAuth envEmpty "a" "anything" = openNoAuth cfgOpenAuth envEmpty "a" ∧
    testHandler cfgOpenAuth envEmpty "a" "g" "anything" = testNoAuth cfgOpenAuth envEmpty "a" "g" ∧
    styleHandler cfgOpenAuth "c" "anything" = styleNoAuth "c" :=
  empty_token_disables_auth cfgOpenAuth envEmpty "a" "g" "c" "anything" rfl

/-- C10: `/test` only requires the resolved path to exist, not to be a
directory: on a name whose resolved path stats as an existing
non-directory, with passing token and guard checks and an empty glob,
`/test` answers 200 with the fixed green badge while `/open` answers 404
for the same name. -/
theorem test_file_green_open_404 :
    ∀ (cfg : Config) (env : Env) (name tok : String),
      name ≠ "" → (cfg.token = "" ∨ cfg.token = tok) → isAbs name = false →
      env.stat (joinPath cfg.basePath (clean name)) = some false →
      testHandler cfg env name "" tok = Response.plainGreenBadge ∧
      (testHandler cfg env name "" tok).status = 200 ∧
      openHandler cfg env name tok = (Response.httpError "Not Found" 404, []) := by
  intro cfg env name tok hName hTok hAbs hStat
  have hTok' : ¬(cfg.token ≠ "" ∧ cfg.token ≠ tok) := by
    rcases hTok with h | h <;> simp [h]
  have hT : testHandler cfg env name "" tok = Response.plainGreenBadge := by
    simp [testHandler, hName, hTok', hAbs, testResolve, hStat]
  exact ⟨hT, by rw [hT]; rfl,
         by simp [openHandler, hName, hTok', hAbs, openResolve, hStat]⟩

/-- C10 witness: a filesystem whose stat reports an existing regular
file. -/
theorem test_file_green_open_404_witness :
    testHandler cfgOpenAuth envFile "notes.md" "" "" = Response.plainGreenBadge ∧
    openHandler cfgOpenAuth envFile "notes.md" "" =
      (Response.httpError "Not Found" 404, []) := by
  have h := test_file_green_open_404 cfgOpenAuth envFile "notes.md" ""
    (by decide) (Or.inl rfl) (by decide) rfl
  exact ⟨h.1, h.2.2⟩

end LocalProxy
